import Mathlib

/-!
Verification development for the deployment-orchestrator module
`cloudfoundry_client/operations/push.py`.

The source is dynamically typed Python.  Manifest entries and application
objects flow through dictionary subscripting, so they are embedded as a small
Python-value type `PyVal` with explicit key-lookup semantics (a missing key is
a `keyError`, subscripting a string is a `typeError`).  Remote resources whose
shape is fixed by the platform API (routes, domains, spaces, stacks) are
embedded as plain structures.  Collaborator calls issued by the orchestrator
are recorded as an `Effect` trace; collaborator return values (fresh route
guids, lookup results, the current time) are supplied by a `ClientEnv`
environment.  Each modeled function returns the trace of effects it issued
together with an `Except Err Unit` outcome, errors aborting the remaining
work exactly as a raised exception does in the source.
-/

namespace Push

/-- Error kinds surfaced by the orchestrator, named after the spec's error
taxonomy (the source raises bare assertion errors with messages). -/
inductive Err where
  | keyError (k : String)
  | typeError (msg : String)
  | valueError
  | invalidRouteFormat
  | conflictingAttributes
  | domainNotFound (route : String)
  | missingPort
  | unsupportedPort
  | configurationError
  | serviceNotFound
  | notImplemented
deriving DecidableEq, Repr

/-- A Python value as used by the manifest dictionaries and the application
objects that the source subscripts dynamically. -/
inductive PyVal where
  | str (s : String)
  | int (n : Int)
  | bool (b : Bool)
  | list (l : List PyVal)
  | dict (d : List (String × PyVal))

/-- A Python dictionary with string keys, as an association list. -/
abbrev Dict := List (String × PyVal)

/-- Key lookup on an association list, first binding wins. -/
def dGet (d : Dict) (k : String) : Option PyVal :=
  List.lookup k d

/-- Python `d.get(k, default)`. -/
def pyGetD (d : Dict) (k : String) (default : PyVal) : PyVal :=
  (dGet d k).getD default

/-- Python `k in d` for a dictionary. -/
def hasKey (d : Dict) (k : String) : Bool :=
  (dGet d k).isSome

/-- Python subscripting `v[k]` with a string key: a dictionary either yields
the value or raises `KeyError`; any other value raises `TypeError`. -/
def pyGet (v : PyVal) (k : String) : Except Err PyVal :=
  match v with
  | .dict d =>
    match dGet d k with
    | some x => .ok x
    | none => .error (.keyError k)
  | _ => .error (.typeError "subscript")

/-- Python `k in v`: key test on dictionaries, substring test on strings,
membership on lists, `TypeError` otherwise. -/
def pyIn (k : String) (v : PyVal) : Except Err Bool :=
  match v with
  | .dict d => .ok (dGet d k).isSome
  | .str s => .ok ((s.splitOn k).length > 1)
  | .list l => .ok (l.any fun x => match x with | .str t => t == k | _ => false)
  | _ => .error (.typeError "in")

/-- Python `v.get(k)` (attribute `get` of a dictionary, default `None`):
yields the optional value, raises on non-dictionaries. -/
def pyGetAttr (v : PyVal) (k : String) : Except Err (Option PyVal) :=
  match v with
  | .dict d => .ok (dGet d k)
  | _ => .error (.typeError "get")

/-- Python truthiness of a value. -/
def pyTruthy : PyVal → Bool
  | .str s => !s.isEmpty
  | .int n => n != 0
  | .bool b => b
  | .list l => !l.isEmpty
  | .dict d => !d.isEmpty

/-- Python `len(v)`: defined for strings, lists and dictionaries. -/
def pyLen : PyVal → Except Err Int
  | .str s => .ok s.length
  | .list l => .ok l.length
  | .dict d => .ok d.length
  | _ => .error (.typeError "len")

/-- Python iteration over a value: a list yields its elements, a string its
characters, a dictionary its keys. -/
def pyIter : PyVal → Except Err (List PyVal)
  | .list l => .ok l
  | .str s => .ok (s.toList.map fun c => .str (String.mk [c]))
  | .dict d => .ok (d.map fun kv => .str kv.1)
  | _ => .error (.typeError "iter")

/-- Set a key in an association list, Python-dictionary style: an existing
binding is overwritten in place, a new one is appended. -/
def assocSet {α : Type} (d : List (String × α)) (k : String) (v : α) :
    List (String × α) :=
  if (List.lookup k d).isSome then
    d.map fun kv => if kv.1 == k then (k, v) else kv
  else d ++ [(k, v)]

/-- Remove a key from an association list (Python `d.pop(k, None)` effect on
the dictionary itself). -/
def assocRemove {α : Type} (d : List (String × α)) (k : String) :
    List (String × α) :=
  d.filter fun kv => kv.1 != k

/-- Python `dst.update(src)` on dictionaries. -/
def dictUpdate (dst src : Dict) : Dict :=
  src.foldl (fun acc kv => assocSet acc kv.1 kv.2) dst

/-- Python `str.find`: index of the first occurrence of a character, `-1`
when absent. -/
def findIdxFrom : List Char → Char → Int → Int
  | [], _, _ => -1
  | x :: xs, c, i => if x = c then i else findIdxFrom xs c (i + 1)

/-- Python `s.find(c)` for a single character. -/
def pyFindChar (s : String) (c : Char) : Int :=
  findIdxFrom s.toList c 0

/-- Python `s[:n]` (slice of the first `n` characters). -/
def strTake (s : String) (n : Nat) : String :=
  String.mk (s.toList.take n)

/-- Python `s[n:]` (slice dropping the first `n` characters). -/
def strDrop (s : String) (n : Nat) : String :=
  String.mk (s.toList.drop n)

/-- Digits of a decimal numeral, most significant first. -/
def digitsToNat : List Char → Nat → Option Nat
  | [], acc => some acc
  | c :: rest, acc =>
    if c.isDigit then digitsToNat rest (acc * 10 + (c.toNat - 48)) else none

/-- Python `int(s)` on an optionally minus-signed decimal numeral:
`ValueError` on anything else. -/
def pyInt (s : String) : Except Err Int :=
  match s.toList with
  | [] => .error .valueError
  | '-' :: rest =>
    match rest, digitsToNat rest 0 with
    | _ :: _, some n => .ok (-(n : Int))
    | _, _ => .error .valueError
  | l =>
    match digitsToNat l 0 with
    | some n => .ok (n : Int)
    | none => .error .valueError

/-- Resource metadata as returned by the platform API. -/
structure Metadata where
  guid : String
deriving DecidableEq, Repr

/-- The entity block of a domain resource.  `router_group_type` is an
optional field (`entity.get` in the source), equal to `some "tcp"` for
TCP-typed domains. -/
structure DomainEntity where
  name : String
  internal : Bool
  router_group_type : Option String
deriving DecidableEq, Repr

/-- A domain resource. -/
structure Domain where
  metadata : Metadata
  entity : DomainEntity
deriving DecidableEq, Repr

/-- The entity block of a route resource: the owning domain, the TCP port
(absent for host routes) and the host. -/
structure RouteEntity where
  domain_guid : String
  port : Option Int
  host : String
deriving DecidableEq, Repr

/-- A route resource. -/
structure Route where
  metadata : Metadata
  entity : RouteEntity
deriving DecidableEq, Repr

/-- A space resource (only its guid is used). -/
structure Space where
  metadata : Metadata
deriving DecidableEq, Repr

/-- The entity block of an application resource as used by routing (name). -/
structure AppEntity where
  name : String
deriving DecidableEq, Repr

/-- An application resource as used by the route reconciler. -/
structure App where
  metadata : Metadata
  entity : AppEntity
deriving DecidableEq, Repr

/-- A stack resource. -/
structure Stack where
  name : String
  guid : String
deriving DecidableEq, Repr

/-- The collaborator calls the orchestrator issues, in order. -/
inductive Effect where
  | appsCreate (request : Dict)
  | appsUpdate (appGuid : String) (request : Dict)
  | createTcpRoute (domainGuid spaceGuid : String) (port : Option Int)
  | createHostRoute (domainGuid spaceGuid hostName pathName : String)
  | associateRoute (appGuid routeGuid : String)
  | removeRoute (appGuid routeGuid : String)
  | bindService (appGuid instanceGuid : String)
  | stop
  | start

/-- Whether an effect creates a route resource. -/
def isCreateEffect : Effect → Bool
  | .createTcpRoute _ _ _ => true
  | .createHostRoute _ _ _ _ => true
  | _ => false

/-- Whether an effect detaches a route from an application. -/
def isRemoveEffect : Effect → Bool
  | .removeRoute _ _ => true
  | _ => false

/-- Whether an effect stops an application. -/
def isStopEffect : Effect → Bool
  | .stop => true
  | _ => false

/-- Whether an effect starts an application. -/
def isStartEffect : Effect → Bool
  | .start => true
  | _ => false

/-- Whether an effect binds a service. -/
def isBindEffect : Effect → Bool
  | .bindService _ _ => true
  | _ => false

/-- Responses of the platform-client collaborators: the guid assigned to a
created route, application lookup by name, the application object and its
routes as seen after creation or update, the known stacks, service-instance
lookup, the organization's and the client's domain lists, the target space,
and the current unix time read by the default-route host naming. -/
structure ClientEnv where
  tcpGuid : String → String → Option Int → String
  hostGuid : String → String → String → String → String
  findApp : String → Option PyVal
  appResult : App
  appRoutes : List Route
  stackList : List Stack
  findService : String → Option String
  orgPrivateDomains : List Domain
  orgSharedDomains : List Domain
  clientSharedDomains : List Domain
  space : Space
  now : Int

/-- The trace-and-outcome result every modeled operation returns. -/
abbrev OpRes := List Effect × Except Err Unit

/-- Sequencing of two operations: the second runs only when the first
succeeded, a raised error aborts with the effects issued so far. -/
def seqRes (a : OpRes) (b : Unit → OpRes) : OpRes :=
  match a with
  | (ef, .ok _) =>
    let r := b ()
    (ef ++ r.1, r.2)
  | (ef, .error e) => (ef, .error e)

/-- The characters following the first scheme separator `://`, when the
string has one. -/
def afterScheme : List Char → Option (List Char)
  | ':' :: '/' :: '/' :: rest => some rest
  | _ :: rest => afterScheme rest
  | [] => none

/-- Split a character list into the part before the first `/` and the rest,
the `/` included in the rest. -/
def spanNetloc : List Char → List Char × List Char
  | [] => ([], [])
  | '/' :: rest => ([], '/' :: rest)
  | c :: rest =>
    let r := spanNetloc rest
    (c :: r.1, r.2)

/-- Modelled from the spec: the `urlparse` helper is imported from
`cloudfoundry_client.imported`, which is not under src.  The spec reads each
declared route "parsed as scheme://host[:port]/path", so this model drops an
optional scheme prefix, takes the network location up to the first slash and
the remainder, beginning with that slash, as the path. -/
def urlparseRoute (s : String) : String × String :=
  let rest := (afterScheme s.toList).getD s.toList
  let nl := spanNetloc rest
  (String.mk nl.1, String.mk nl.2)

/-- Source `PushOperation._split_route` (lines 149-161): extract the
domain-or-host part, the optional port and the path of a declared route.
A colon in the network location splits domain and numeric port when it is
neither at position 0 nor within the last two characters; any other colon is
a format error.  A path of exactly "/" becomes the empty string. -/
def splitRoute (requested_route : PyVal) : Except Err (String × Option Int × String) :=
  match pyGet requested_route "route" with
  | .error e => .error e
  | .ok (.str r) =>
    let parsed := urlparseRoute r
    let netloc := parsed.1
    let ppath := parsed.2
    let idx := pyFindChar netloc ':'
    if 0 < idx ∧ idx < (netloc.length : Int) - 2 then
      match pyInt (strDrop netloc (idx.toNat + 1)) with
      | .error e => .error e
      | .ok port =>
        .ok (strTake netloc idx.toNat, some port, if ppath == "/" then "" else ppath)
    else if idx ≥ 0 then .error .invalidRouteFormat
    else .ok (netloc, none, if ppath == "/" then "" else ppath)
  | .ok _ => .error (.typeError "urlparse")

/-- The name-keyed domain dictionaries of lines 117-118: later duplicates
overwrite earlier ones. -/
def mkDomainMap (ds : List Domain) : List (String × Domain) :=
  ds.foldl (fun acc d => assocSet acc d.entity.name d) []

/-- One scope of `PushOperation._resolve_domain` (lines 163-175): an exact
match of the whole route as a domain name yields an empty host; otherwise,
when the route has a dot neither at position 0 nor within the last two
characters, it is split at that dot into host and domain. -/
def resolveDomainIn (route : String) (domains : List (String × Domain)) :
    Option (String × String × Domain) :=
  match List.lookup route domains with
  | some d => some ("", route, d)
  | none =>
    let idx := pyFindChar route '.'
    if 0 < idx ∧ idx < (route.length : Int) - 2 then
      match List.lookup (strDrop route (idx.toNat + 1)) domains with
      | some d => some (strTake route idx.toNat, strDrop route (idx.toNat + 1), d)
      | none => none
    else none

/-- Source `PushOperation._resolve_domain`: private domains are searched before
shared ones; no match in either scope is a domain-not-found error. -/
def resolveDomain (route : String) (priv shar : List (String × Domain)) :
    Except Err (String × String × Domain) :=
  match resolveDomainIn route priv with
  | some r => .ok r
  | none =>
    match resolveDomainIn route shar with
    | some r => .ok r
    | none => .error (.domainNotFound route)

/-- The one-element list inside the generator of lines 134-135 and 140-141:
Python truthiness of a list is non-emptiness. -/
def pyTruthyList (l : List Bool) : Bool :=
  !l.isEmpty

/-- The deduplication test of lines 134-135 and 140-141, written in the
source as a generator whose every element is the one-element list holding
the comparison, so each element is truthy regardless of the comparison. -/
def pyAnyListGen (l : List Route) (p : Route → Bool) : Bool :=
  l.any fun r => pyTruthyList [p r]

/-- The body of the `for requested_route in requested_routes` loop of
`PushOperation._build_new_requested_routes` (lines 119-147) for one declared
route. -/
def processRequestedRoute (env : ClientEnv) (space : Space) (app : App)
    (priv shar : List (String × Domain)) (existing_routes : List Route)
    (requested_route : PyVal) : OpRes :=
  match splitRoute requested_route with
  | .error e => ([], .error e)
  | .ok (route, port, path) =>
    if 0 < path.length ∧ port ≠ none then ([], .error .conflictingAttributes)
    else
      match resolveDomain route priv shar with
      | .error e => ([], .error e)
      | .ok (host, domain_name, domain) =>
        -- line 124 tests that port is not None and host is not None; the
        -- host returned by resolve_domain is always a string, never None,
        -- so the second conjunct holds whenever this point is reached
        if port ≠ none then ([], .error .conflictingAttributes)
        else if port ≠ none ∧ domain.entity.router_group_type ≠ some "tcp" then
          ([], .error .unsupportedPort)
        else if domain.entity.router_group_type = some "tcp" ∧ port = none then
          ([], .error .missingPort)
        else if domain.entity.router_group_type = some "tcp" then
          if !(pyAnyListGen existing_routes fun r =>
              r.entity.domain_guid == domain.metadata.guid && r.entity.port == port) then
            let g := env.tcpGuid domain.metadata.guid space.metadata.guid port
            ([.createTcpRoute domain.metadata.guid space.metadata.guid port,
              .associateRoute app.metadata.guid g], .ok ())
          else ([], .ok ())
        else
          if !(pyAnyListGen existing_routes fun r =>
              r.entity.domain_guid == domain.metadata.guid && r.entity.host == host) then
            -- line 142 subscripts domain_name, a string, with the key
            -- 'metadata'; by pyGet a string subscript is this type error
            ([], .error (.typeError "subscript"))
          else ([], .ok ())

/-- The loop of `PushOperation._build_new_requested_routes`: declared routes
are processed in order, a raised error aborting the remaining ones. -/
def processRoutes (env : ClientEnv) (space : Space) (app : App)
    (priv shar : List (String × Domain)) (existing_routes : List Route) :
    List PyVal → OpRes
  | [] => ([], .ok ())
  | rr :: rest =>
    match processRequestedRoute env space app priv shar existing_routes rr with
    | (effs, .ok _) =>
      let r := processRoutes env space app priv shar existing_routes rest
      (effs ++ r.1, r.2)
    | (effs, .error e) => (effs, .error e)

/-- Source `PushOperation._build_new_requested_routes` (lines 116-147), taking the
organization's private and shared domain lists as inputs. -/
def buildNewRequestedRoutes (env : ClientEnv) (space : Space) (app : App)
    (privList sharList : List Domain) (existing_routes : List Route)
    (requested_routes : List PyVal) : OpRes :=
  processRoutes env space app (mkDomainMap privList) (mkDomainMap sharList)
    existing_routes requested_routes

/-- Source `PushOperation._remove_all_routes` (lines 91-93). -/
def removeAllRoutes (app : App) (routes : List Route) : OpRes :=
  (routes.map fun r => Effect.removeRoute app.metadata.guid r.metadata.guid, .ok ())

/-- Source `PushOperation._build_default_route` (lines 95-114), with the client's
shared-domain list as input: the first non-internal shared domain carries the
default route, a TCP route for a TCP-typed domain, otherwise a host route
named after the application, suffixed with the current unix time when the
random-route flag is set. -/
def buildDefaultRoute (env : ClientEnv) (clientShared : List Domain)
    (space : Space) (app : App) (random_route : Bool) : OpRes :=
  match clientShared.find? (fun d => !d.entity.internal) with
  | none => ([], .error .configurationError)
  | some shared_domain =>
    if shared_domain.entity.router_group_type = some "tcp" then
      let g := env.tcpGuid shared_domain.metadata.guid space.metadata.guid none
      ([.createTcpRoute shared_domain.metadata.guid space.metadata.guid none,
        .associateRoute app.metadata.guid g], .ok ())
    else if random_route then
      let host := app.entity.name ++ "-" ++ toString env.now
      let g := env.hostGuid shared_domain.metadata.guid space.metadata.guid host ""
      ([.createHostRoute shared_domain.metadata.guid space.metadata.guid host "",
        .associateRoute app.metadata.guid g], .ok ())
    else
      let host := app.entity.name
      let g := env.hostGuid shared_domain.metadata.guid space.metadata.guid host ""
      ([.createHostRoute shared_domain.metadata.guid space.metadata.guid host "",
        .associateRoute app.metadata.guid g], .ok ())

/-- The condition of line 86: the manifest declares no routes, either no
`routes` key at all or one whose value has length zero. -/
def noRoutesDeclared (m : Dict) : Except Err Bool :=
  match dGet m "routes" with
  | none => .ok true
  | some v => (pyLen v).map fun n => n == 0

/-- Source `PushOperation._route_application` (lines 82-89), with the already
fetched route list of the application and the domain lists as inputs: a
truthy no-route flag detaches everything; no declared and no existing routes
synthesize a default route; otherwise the declared routes are reconciled,
subscripting `routes` even when the key is absent (line 89). -/
def routeApplication (env : ClientEnv) (clientShared privList sharList : List Domain)
    (space : Space) (app : App) (existing_routes : List Route) (m : Dict) : OpRes :=
  if pyTruthy (pyGetD m "no-route" (.bool false)) then
    removeAllRoutes app existing_routes
  else
    match noRoutesDeclared m with
    | .error e => ([], .error e)
    | .ok nr =>
      if nr ∧ existing_routes.length = 0 then
        buildDefaultRoute env clientShared space app
          (pyTruthy (pyGetD m "random-route" (.bool false)))
      else
        match dGet m "routes" with
        | none => ([], .error (.keyError "routes"))
        | some v =>
          match pyIter v with
          | .error e => ([], .error e)
          | .ok rs => buildNewRequestedRoutes env space app privList sharList existing_routes rs

/-- Source `PushOperation._build_request_from_manifest` (lines 59-71): copy the
manifest fields, attach the stack guid when a lookup-by-name hits, and turn a
docker block carrying an image into docker fields.  The stack lookup yields
nothing on no match; the request is then built without a stack guid. -/
def buildRequestFromManifest (stackList : List Stack) (app_manifest : PyVal) :
    Except Err Dict :=
  match app_manifest with
  | .dict entries =>
    let stackFound : Option Stack :=
      if hasKey entries "stack" then
        match dGet entries "stack" with
        | some (.str s) => stackList.find? fun st => st.name == s
        | _ => none
      else none
    let request :=
      match stackFound with
      | some st => assocSet entries "stack_guid" (.str st.guid)
      | none => entries
    match dGet request "docker" with
    | none => .ok request
    | some docker =>
      let request := assocRemove request "docker"
      match pyIn "image" docker with
      | .error e => .error e
      | .ok false => .ok request
      | .ok true =>
        match pyGet docker "image" with
        | .error e => .error e
        | .ok img =>
          let request := assocSet request "docker_image" img
          let request := assocSet request "diego" (.bool true)
          match pyIn "username" docker with
          | .error e => .error e
          | .ok false => .ok request
          | .ok true =>
            match pyIn "password" docker with
            | .error e => .error e
            | .ok false => .ok request
            | .ok true =>
              match pyGet docker "username", pyGet docker "password" with
              | .ok u, .ok p =>
                .ok (assocSet request "docker_credentials"
                  (.dict [("username", u), ("password", p)]))
              | .error e, _ => .error e
              | _, .error e => .error e
  | _ => .error (.typeError "update")

/-- Whether the request resolves to an http health check with no explicit
endpoint (the first two conjuncts of the defaulting conditions at lines 47
and 54). -/
def healthCheckNeedsEndpoint (request : Dict) : Bool :=
  (match dGet request "health-check-type" with
   | some (.str t) => t == "http"
   | _ => false) &&
  (dGet request "health-check-http-endpoint").isNone

/-- Source `PushOperation._create_application` (lines 44-49). -/
def createApplication (env : ClientEnv) (space : Space) (m : Dict) : OpRes :=
  match buildRequestFromManifest env.stackList (.dict m) with
  | .error e => ([], .error e)
  | .ok request =>
    let request := assocSet request "space_guid" (.str space.metadata.guid)
    let request :=
      if healthCheckNeedsEndpoint request then
        assocSet request "health-check-http-endpoint" (.str "/")
      else request
    ([Effect.appsCreate request], .ok ())

/-- Source `PushOperation._merge_environment` (lines 73-80): start from the
environment of the first argument's entity block, then overlay the `env`
entries of the second. -/
def mergeEnvironment (app app_manifest : PyVal) : Except Err Dict :=
  match pyGet app "entity" with
  | .error e => .error e
  | .ok ent =>
    match pyIn "environment_json" ent with
    | .error e => .error e
    | .ok hasEnv =>
      let base : Except Err Dict :=
        if hasEnv then
          match pyGet ent "environment_json" with
          | .error e => .error e
          | .ok (.dict d) => .ok (dictUpdate [] d)
          | .ok _ => .error (.typeError "update")
        else .ok []
      match base with
      | .error e => .error e
      | .ok environment =>
        match pyIn "env" app_manifest with
        | .error e => .error e
        | .ok false => .ok environment
        | .ok true =>
          match pyGet app_manifest "env" with
          | .error e => .error e
          | .ok (.dict d) => .ok (dictUpdate environment d)
          | .ok _ => .error (.typeError "update")

/-- The update call of line 57: `apps.update(app['metadata']['guid'],
**request)`. -/
def sendUpdate (app : PyVal) (request : Dict) : OpRes :=
  match pyGet app "metadata" with
  | .error e => ([], .error e)
  | .ok md =>
    match pyGet md "guid" with
    | .error e => ([], .error e)
    | .ok (.str g) => ([Effect.appsUpdate g request], .ok ())
    | .ok _ => ([], .error (.typeError "guid"))

/-- Source `PushOperation._update_application` (lines 51-57).  The parameters keep
the order of the source definition, `(app_manifest, app)`; its caller at
line 41 passes `(app, app_manifest)`. -/
def updateApplication (env : ClientEnv) (app_manifest app : PyVal) : OpRes :=
  match buildRequestFromManifest env.stackList app_manifest with
  | .error e => ([], .error e)
  | .ok request =>
    match mergeEnvironment app app_manifest with
    | .error e => ([], .error e)
    | .ok envd =>
      let request := assocSet request "environment_json" (.dict envd)
      if healthCheckNeedsEndpoint request then
        match pyGet app "entity" with
        | .error e => ([], .error e)
        | .ok ent =>
          match pyGetAttr ent "health_check_http_endpoint" with
          | .error e => ([], .error e)
          | .ok vOpt =>
            let request :=
              if vOpt.isNone then assocSet request "health-check-http-endpoint" (.str "/")
              else request
            sendUpdate app request
      else sendUpdate app request

/-- Source `PushOperation._init_application` (lines 39-42): look the application up
by name; a hit updates it, a miss creates it.  Line 41 calls
`_update_application(app, app_manifest)` although the definition's parameters
are `(app_manifest, app)`, so the two arguments arrive swapped. -/
def initApplication (env : ClientEnv) (m : Dict) : OpRes :=
  match dGet m "name" with
  | none => ([], .error (.keyError "name"))
  | some nv =>
    let appFound := match nv with | .str s => env.findApp s | _ => none
    match appFound with
    | some appObj => updateApplication env appObj (.dict m)
    | none => createApplication env env.space m

/-- The loop of `PushOperation._bind_services` (lines 180-185): each named
service is looked up in the space, absence is fatal, a hit creates a
binding. -/
def bindLoop (env : ClientEnv) (app : App) : List PyVal → OpRes
  | [] => ([], .ok ())
  | n :: rest =>
    let inst := match n with | .str s => env.findService s | _ => none
    match inst with
    | none => ([], .error .serviceNotFound)
    | some g =>
      let r := bindLoop env app rest
      (Effect.bindService app.metadata.guid g :: r.1, r.2)

/-- Source `PushOperation._bind_services`, iterating `app_manifest.get('services',
[])`. -/
def bindServices (env : ClientEnv) (app : App) (m : Dict) : OpRes :=
  match pyIter (pyGetD m "services" (.list [])) with
  | .error e => ([], .error e)
  | .ok names => bindLoop env app names

/-- Source `PushOperation._restart_application` (lines 187-189): unconditional stop
then start. -/
def restartApplication : OpRes :=
  ([Effect.stop, Effect.start], .ok ())

/-- Source `PushOperation._upload_application` (lines 177-178): declared but raising
a not-implemented error. -/
def uploadApplication : OpRes :=
  ([], .error .notImplemented)

/-- Source `PushOperation._push_application` (lines 26-31): resolve the application,
reconcile routes, upload, bind services, restart; the routing step receives
the application object and route list returned by the collaborators. -/
def pushApplication (env : ClientEnv) (m : Dict) : OpRes :=
  seqRes (initApplication env m) fun _ =>
    seqRes (routeApplication env env.clientSharedDomains env.orgPrivateDomains
        env.orgSharedDomains env.space env.appResult env.appRoutes m) fun _ =>
      seqRes uploadApplication fun _ =>
        seqRes (bindServices env env.appResult m) fun _ =>
          restartApplication

/-- Source `PushOperation._push_docker` (lines 33-37): as `_push_application` but
without the upload step. -/
def pushDocker (env : ClientEnv) (m : Dict) : OpRes :=
  seqRes (initApplication env m) fun _ =>
    seqRes (routeApplication env env.clientSharedDomains env.orgPrivateDomains
        env.orgSharedDomains env.space env.appResult env.appRoutes m) fun _ =>
      seqRes (bindServices env env.appResult m) fun _ =>
        restartApplication

/-- The loop of `PushOperation.push` (lines 15-19) over the loaded manifest
entries: an entry with a `path` key is pushed as an application, otherwise an
entry with a `docker` key is pushed as a docker application, and an entry
with neither key is skipped; a raised error aborts the remaining entries. -/
def push (env : ClientEnv) : List Dict → OpRes
  | [] => ([], .ok ())
  | m :: rest =>
    if hasKey m "path" then
      seqRes (pushApplication env m) fun _ => push env rest
    else if hasKey m "docker" then
      seqRes (pushDocker env m) fun _ => push env rest
    else push env rest

/-- The association-set semantics of a trace for one application: an
associate effect for that application appends the route guid, a remove
effect deletes it; creations do not by themselves associate. -/
def applyEffect (appGuid : String) (assoc : List String) : Effect → List String
  | .associateRoute a r => if a == appGuid then assoc ++ [r] else assoc
  | .removeRoute a r => if a == appGuid then assoc.filter (fun g => g != r) else assoc
  | _ => assoc

/-- Folding a whole trace over an initial association set. -/
def applyTrace (appGuid : String) (assoc : List String) (tr : List Effect) :
    List String :=
  tr.foldl (applyEffect appGuid) assoc

/-- The spec's deduplication criterion for one declared route against one
existing route: after parsing and domain resolution they agree on the domain
guid together with the port for a TCP-typed domain, or with the host
otherwise. -/
def declMatches (privList sharList : List Domain) (rr : PyVal) (r : Route) : Bool :=
  match splitRoute rr with
  | .error _ => false
  | .ok (route, port, _) =>
    match resolveDomain route (mkDomainMap privList) (mkDomainMap sharList) with
    | .error _ => false
    | .ok (host, _, domain) =>
      r.entity.domain_guid == domain.metadata.guid &&
      (if domain.entity.router_group_type = some "tcp" then r.entity.port == port
       else r.entity.host == host)

/-- A sample space. -/
def exSpace : Space := ⟨⟨"space-guid"⟩⟩

/-- A sample application resource. -/
def exApp : App := ⟨⟨"app-guid"⟩, ⟨"myapp"⟩⟩

/-- A sample collaborator environment. -/
def exEnv : ClientEnv :=
  { tcpGuid := fun _ _ _ => "new-tcp-route"
    hostGuid := fun _ _ _ _ => "new-host-route"
    findApp := fun _ => none
    appResult := exApp
    appRoutes := []
    stackList := []
    findService := fun _ => none
    orgPrivateDomains := []
    orgSharedDomains := []
    clientSharedDomains := []
    space := exSpace
    now := 1700000000 }

/-- The TCP-typed shared domain of the C1 scenario. -/
def c1Domain : Domain := ⟨⟨"tcp-dom-guid"⟩, ⟨"tcp-domain.example.com", false, some "tcp"⟩⟩

/-- The declared route of the C1 scenario. -/
def c1Route : PyVal := .dict [("route", .str "tcp-domain.example.com:4444")]

def c2AppObj : PyVal :=
  .dict [("metadata", .dict [("guid", .str "app-guid")]),
         ("entity", .dict [("name", .str "myapp"),
                           ("environment_json", .dict [("A", .str "1")])])]

def c2Manifest : Dict :=
  [("name", .str "myapp"), ("path", .str "."), ("env", .dict [("B", .str "2")])]

def c2Env : ClientEnv :=
  { exEnv with findApp := fun n => if n == "myapp" then some c2AppObj else none }

/-- The shared non-TCP domain of the C3 scenario. -/
def c3Domain : Domain := ⟨⟨"shared-dom-guid"⟩, ⟨"shared.example.com", false, none⟩⟩

/-- The declared route of the C3 scenario. -/
def c3Route : PyVal := .dict [("route", .str "myhost.shared.example.com/custom")]

/-- A non-TCP shared domain for the idempotence witness. -/
def c4Domain : Domain := ⟨⟨"c4-dom-guid"⟩, ⟨"c4.example.com", false, none⟩⟩

/-- A declared host route on that domain. -/
def c4Decl : PyVal := .dict [("route", .str "web.c4.example.com")]

/-- The existing route matching the declared one on domain guid and host. -/
def c4Existing : Route := ⟨⟨"c4-route-guid"⟩, ⟨"c4-dom-guid", none, "web"⟩⟩

/-- An existing route for the no-route witness. -/
def c5Route : Route := ⟨⟨"c5-route-guid"⟩, ⟨"c5-dom-guid", none, "h"⟩⟩

/-- A manifest requesting no routes at all. -/
def c5Manifest : Dict := [("no-route", .bool true)]

/-- A non-internal, non-TCP shared domain for the default-route witness. -/
def c6Domain : Domain := ⟨⟨"c6-dom-guid"⟩, ⟨"apps.example.com", false, none⟩⟩

/-- A declared route carrying both a port and a path. -/
def c7Route : PyVal := .dict [("route", .str "app.example.com:8080/docs")]

/-- A manifest entry with neither a path nor a docker block. -/
def c8Entry : Dict := [("name", .str "plain")]

/-- A docker manifest entry. -/
def c8DockerManifest : Dict :=
  [("name", .str "dockapp"), ("docker", .dict [("image", .str "img")])]

/-- A shared domain available for the default route of the docker push. -/
def c8Domain : Domain := ⟨⟨"c8-dom-guid"⟩, ⟨"c8.example.com", false, none⟩⟩

/-- An environment whose client-wide shared-domain list carries it. -/
def c8Env : ClientEnv := { exEnv with clientSharedDomains := [c8Domain] }

/-- A manifest naming a stack unknown to the platform. -/
def c9Manifest : Dict := [("name", .str "app"), ("stack", .str "cflinuxfs3")]

/-- An existing route unrelated to anything declared. -/
def c10Existing : Route := ⟨⟨"c10-route-guid"⟩, ⟨"other-dom-guid", none, "other"⟩⟩

/-- A declared route on a domain the existing route does not match. -/
def c10Decl : PyVal := .dict [("route", .str "web.c10.example.com")]

/-- The non-TCP shared domain that declared route resolves to. -/
def c10Domain : Domain := ⟨⟨"c10-dom-guid"⟩, ⟨"c10.example.com", false, none⟩⟩

/-- The host chosen by the default route of lines 106-113: the application
name, suffixed with the current unix time when the random-route flag of the
manifest is truthy. -/
def defaultHost (env : ClientEnv) (app : App) (m : Dict) : String :=
  if pyTruthy (pyGetD m "random-route" (.bool false)) then
    app.entity.name ++ "-" ++ toString env.now
  else app.entity.name

/-- The generator test of lines 134-135 and 140-141 is non-emptiness of the
existing-route list: each generator element is a non-empty literal list, so
it is truthy whatever the comparison inside evaluates to. -/
theorem pyAnyListGen_eq (l : List Route) (p : Route → Bool) :
    pyAnyListGen l p = !l.isEmpty := by
  cases l <;> rfl

/-- With at least one existing route, the loop body issues no effect for any
declared route: every branch either raises or skips creation, because the
degenerate deduplication test of lines 134-135 and 140-141 reports a match
as soon as the existing-route list is non-empty. -/
theorem processRequestedRoute_effects_nil
    (env : ClientEnv) (space : Space) (app : App)
    (priv shar : List (String × Domain)) (existing_routes : List Route) (rr : PyVal)
    (h : existing_routes ≠ []) :
    (processRequestedRoute env space app priv shar existing_routes rr).1 = [] := by
  have hne : existing_routes.isEmpty = false := by
    cases existing_routes with
    | nil => exact absurd rfl h
    | cons a t => rfl
  unfold processRequestedRoute
  split
  · rfl
  · split
    · rfl
    · split
      · rfl
      · split
        · rfl
        · split
          · rfl
          · split
            · rfl
            · split
              · simp [pyAnyListGen_eq, hne]
              · simp [pyAnyListGen_eq, hne]

/-- Lifting of the previous lemma to the whole declared-route loop. -/
theorem processRoutes_effects_nil
    (env : ClientEnv) (space : Space) (app : App)
    (priv shar : List (String × Domain)) (existing_routes : List Route)
    (h : existing_routes ≠ []) (rs : List PyVal) :
    (processRoutes env space app priv shar existing_routes rs).1 = [] := by
  induction rs with
  | nil => rfl
  | cons rr rest ih =>
    have h1 := processRequestedRoute_effects_nil env space app priv shar existing_routes rr h
    unfold processRoutes
    cases hp : processRequestedRoute env space app priv shar existing_routes rr with
    | mk effs res =>
      rw [hp] at h1
      simp only at h1
      cases res with
      | ok u => simp [h1, ih]
      | error e => simp [h1]

/-- With at least one existing route, `_build_new_requested_routes` issues no
effect at all. -/
theorem buildNewRequestedRoutes_effects_nil
    (env : ClientEnv) (space : Space) (app : App)
    (privList sharList : List Domain) (existing_routes : List Route)
    (h : existing_routes ≠ []) (rs : List PyVal) :
    (buildNewRequestedRoutes env space app privList sharList existing_routes rs).1 = [] :=
  processRoutes_effects_nil env space app (mkDomainMap privList) (mkDomainMap sharList)
    existing_routes h rs

/-- Folding the removal effects of a route list empties any association set
whose members all come from that list. -/
theorem applyTrace_remove_all (a : String) (l : List Route) (assoc : List String)
    (h : ∀ g ∈ assoc, ∃ r ∈ l, r.metadata.guid = g) :
    applyTrace a assoc (l.map fun r => Effect.removeRoute a r.metadata.guid) = [] := by
  induction l generalizing assoc with
  | nil =>
    have : assoc = [] := by
      cases assoc with
      | nil => rfl
      | cons g gs =>
        obtain ⟨r, hr, _⟩ := h g (by simp)
        exact absurd hr (List.not_mem_nil r)
    rw [this]
    rfl
  | cons r0 rs ih =>
    simp only [List.map_cons, applyTrace, List.foldl_cons]
    have hstep : applyEffect a assoc (Effect.removeRoute a r0.metadata.guid)
        = assoc.filter fun g => g != r0.metadata.guid := by
      simp [applyEffect]
    rw [hstep]
    apply ih
    intro g hg
    rw [List.mem_filter] at hg
    obtain ⟨hga, hgne⟩ := hg
    obtain ⟨r, hr, hrg⟩ := h g hga
    rcases List.mem_cons.mp hr with h0 | hmem
    · exfalso
      rw [h0] at hrg
      exact bne_iff_ne.mp hgne hrg.symm
    · exact ⟨r, hmem, hrg⟩

/-- A successful first operation contributes its effects and hands over. -/
theorem seqRes_of_ok (a : OpRes) (b : Unit → OpRes) (h : a.2 = .ok ()) :
    seqRes a b = (a.1 ++ (b ()).1, (b ()).2) := by
  cases a with
  | mk ef r =>
    cases r with
    | ok u => cases u; rfl
    | error e => exact absurd h (by simp)

/-- A failed first operation aborts the sequence unchanged. -/
theorem seqRes_of_error (a : OpRes) (b : Unit → OpRes) (e : Err) (h : a.2 = .error e) :
    seqRes a b = a := by
  cases a with
  | mk ef r =>
    cases r with
    | ok u => exact absurd h (by simp)
    | error e0 => rfl

/-- A successful sequence has a successful first operation. -/
theorem seqRes_ok_left (a : OpRes) (b : Unit → OpRes) (h : (seqRes a b).2 = .ok ()) :
    a.2 = .ok () := by
  cases a with
  | mk ef r =>
    cases r with
    | ok u => cases u; rfl
    | error e => simp [seqRes] at h

/-- A successful sequence has a successful second operation. -/
theorem seqRes_ok_right (a : OpRes) (b : Unit → OpRes) (h : (seqRes a b).2 = .ok ()) :
    (b ()).2 = .ok () := by
  cases a with
  | mk ef r =>
    cases r with
    | ok u => cases u; simpa [seqRes] using h
    | error e => simp [seqRes] at h

/-- A sequence whose second operation always fails, fails. -/
theorem seqRes_fails (a : OpRes) (b : Unit → OpRes)
    (hb : ∀ u, ∃ e, (b u).2 = .error e) :
    ∃ e, (seqRes a b).2 = .error e := by
  cases a with
  | mk ef r =>
    cases r with
    | ok u =>
      cases u
      obtain ⟨e, he⟩ := hb ()
      exact ⟨e, by simpa [seqRes] using he⟩
    | error e => exact ⟨e, rfl⟩

/-- A non-docker push never completes: the upload step raises
not-implemented before service binding and restart. -/
theorem pushApplication_fails (env : ClientEnv) (m : Dict) :
    ∃ e, (pushApplication env m).2 = .error e := by
  unfold pushApplication
  apply seqRes_fails
  intro _
  apply seqRes_fails
  intro _
  exact ⟨.notImplemented, rfl⟩

/-- C1: in the spec scenario the manifest declares the route
"tcp-domain.example.com:4444" on a registered TCP-typed shared domain with
no existing route on port 4444, and the spec expects exactly one TCP route
with that port, associated to the application.  The code instead raises the
host-and-port conflict of line 124: the route parses to port 4444, domain
resolution returns the empty-string host for the exact domain match, and the
guard tests that the host is not None, which every string satisfies, so no
TCP route is ever created and the reconciliation fails. -/
theorem c1_tcp_route_scenario_raises :
    splitRoute c1Route = .ok ("tcp-domain.example.com", some 4444, "") ∧
    resolveDomain "tcp-domain.example.com" (mkDomainMap []) (mkDomainMap [c1Domain])
      = .ok ("", "tcp-domain.example.com", c1Domain) ∧
    buildNewRequestedRoutes exEnv exSpace exApp [] [c1Domain] [] [c1Route]
      = ([], .error .conflictingAttributes) :=
  ⟨rfl, rfl, rfl⟩

/-- C2: the spec expects the update request to carry the existing
environment overlaid with the manifest's env entries.  Line 41 calls
`_update_application(app, app_manifest)` while the definition's parameters
are `(app_manifest, app)`, so `_merge_environment` receives the manifest in
the application position and subscripts it with 'entity', raising KeyError:
no update request is ever sent.  The second conjunct shows the merge itself
produces the specified overlay when its arguments arrive in the documented
roles. -/
theorem c2_update_swaps_arguments :
    initApplication c2Env c2Manifest = ([], .error (.keyError "entity")) ∧
    mergeEnvironment c2AppObj (.dict c2Manifest)
      = .ok [("A", .str "1"), ("B", .str "2")] :=
  ⟨rfl, rfl⟩

/-- C3: in the spec scenario the manifest declares
"myhost.shared.example.com/custom" on a registered non-TCP shared domain
with no existing routes, and the spec expects a host route with host
myhost and path /custom.  Domain resolution succeeds, but the creation call
of line 142 subscripts `domain_name` — the domain-name string, not the
domain object — with 'metadata', raising TypeError: no host route is
created. -/
theorem c3_host_route_scenario_type_error :
    splitRoute c3Route = .ok ("myhost.shared.example.com", none, "/custom") ∧
    resolveDomain "myhost.shared.example.com" (mkDomainMap []) (mkDomainMap [c3Domain])
      = .ok ("myhost", "shared.example.com", c3Domain) ∧
    buildNewRequestedRoutes exEnv exSpace exApp [] [c3Domain] [] [c3Route]
      = ([], .error (.typeError "subscript")) :=
  ⟨rfl, rfl, rfl⟩

/-- C4: when every declared route already has a matching existing route —
matching on domain id and port, or domain id and host, as appropriate —
re-running `_build_new_requested_routes` issues zero route-creation calls. -/
theorem c4_reconciliation_idempotent
    (env : ClientEnv) (space : Space) (app : App)
    (privList sharList : List Domain) (existing_routes : List Route)
    (requested : List PyVal)
    (h : ∀ rr ∈ requested, ∃ r ∈ existing_routes,
      declMatches privList sharList rr r = true) :
    ∀ e ∈ (buildNewRequestedRoutes env space app privList sharList
        existing_routes requested).1, isCreateEffect e = false := by
  cases requested with
  | nil =>
    intro e he
    exact absurd he (List.not_mem_nil e)
  | cons rr rest =>
    obtain ⟨r, hr, _⟩ := h rr (by simp)
    have hne : existing_routes ≠ [] := List.ne_nil_of_mem hr
    rw [buildNewRequestedRoutes_effects_nil env space app privList sharList
      existing_routes hne (rr :: rest)]
    intro e he
    exact absurd he (List.not_mem_nil e)

/-- Witness for C4 at a host route whose matching route already exists. -/
theorem c4_witness :
    (∀ rr ∈ [c4Decl], ∃ r ∈ [c4Existing], declMatches [] [c4Domain] rr r = true) ∧
    ∀ e ∈ (buildNewRequestedRoutes exEnv exSpace exApp [] [c4Domain]
        [c4Existing] [c4Decl]).1, isCreateEffect e = false :=
  ⟨by decide,
   c4_reconciliation_idempotent exEnv exSpace exApp [] [c4Domain] [c4Existing]
     [c4Decl] (by decide)⟩

/-- C5: a truthy no-route flag makes reconciliation emit exactly one detach
call per currently associated route and nothing else, so the application
ends with zero associated routes; no effect in the trace deletes a route
resource. -/
theorem c5_no_route_detaches_all
    (env : ClientEnv) (clientShared privList sharList : List Domain)
    (space : Space) (app : App) (existing_routes : List Route) (m : Dict)
    (h : pyTruthy (pyGetD m "no-route" (.bool false)) = true) :
    routeApplication env clientShared privList sharList space app existing_routes m
      = (existing_routes.map fun r => Effect.removeRoute app.metadata.guid r.metadata.guid,
         .ok ()) ∧
    applyTrace app.metadata.guid (existing_routes.map fun r => r.metadata.guid)
      (routeApplication env clientShared privList sharList space app existing_routes m).1
      = [] ∧
    ∀ e ∈ (routeApplication env clientShared privList sharList space app
        existing_routes m).1, isRemoveEffect e = true := by
  have h1 : routeApplication env clientShared privList sharList space app existing_routes m
      = (existing_routes.map fun r => Effect.removeRoute app.metadata.guid r.metadata.guid,
         .ok ()) := by
    unfold routeApplication
    rw [if_pos h]
    rfl
  refine ⟨h1, ?_, ?_⟩
  · rw [h1]
    exact applyTrace_remove_all app.metadata.guid existing_routes
      (existing_routes.map fun r => r.metadata.guid)
      (by
        intro g hg
        rw [List.mem_map] at hg
        obtain ⟨r, hr, hrg⟩ := hg
        exact ⟨r, hr, hrg⟩)
  · rw [h1]
    intro e he
    rw [List.mem_map] at he
    obtain ⟨r, hr, hre⟩ := he
    rw [← hre]
    rfl

/-- Witness for C5 with one associated route. -/
theorem c5_witness :
    pyTruthy (pyGetD c5Manifest "no-route" (.bool false)) = true ∧
    routeApplication exEnv [] [] [] exSpace exApp [c5Route] c5Manifest
      = ([.removeRoute "app-guid" "c5-route-guid"], .ok ()) :=
  ⟨rfl, (c5_no_route_detaches_all exEnv [] [] [] exSpace exApp [c5Route] c5Manifest rfl).1⟩

/-- C6: with no no-route flag, no declared routes (key absent or a
zero-length value) and no associated routes, reconciliation synthesizes
exactly one default route on the first non-internal shared domain, failing
with the configuration error when none exists: a port route when that
domain is TCP-typed, otherwise a host route named after the application,
suffixed with the current unix time when the random-route flag is set; the
route is associated to the application. -/
theorem c6_default_route
    (env : ClientEnv) (clientShared privList sharList : List Domain)
    (space : Space) (app : App) (m : Dict)
    (h1 : pyTruthy (pyGetD m "no-route" (.bool false)) = false)
    (h2 : noRoutesDeclared m = .ok true) :
    (clientShared.find? (fun d0 => !d0.entity.internal) = none →
      routeApplication env clientShared privList sharList space app [] m
        = ([], .error .configurationError)) ∧
    (∀ d, clientShared.find? (fun d0 => !d0.entity.internal) = some d →
      (d.entity.router_group_type = some "tcp" →
        routeApplication env clientShared privList sharList space app [] m
          = ([.createTcpRoute d.metadata.guid space.metadata.guid none,
              .associateRoute app.metadata.guid
                (env.tcpGuid d.metadata.guid space.metadata.guid none)], .ok ())) ∧
      (d.entity.router_group_type ≠ some "tcp" →
        routeApplication env clientShared privList sharList space app [] m
          = ([.createHostRoute d.metadata.guid space.metadata.guid
                (defaultHost env app m) "",
              .associateRoute app.metadata.guid
                (env.hostGuid d.metadata.guid space.metadata.guid
                  (defaultHost env app m) "")], .ok ()))) := by
  have hbase : routeApplication env clientShared privList sharList space app [] m
      = buildDefaultRoute env clientShared space app
          (pyTruthy (pyGetD m "random-route" (.bool false))) := by
    unfold routeApplication
    rw [if_neg (by simp [h1])]
    rw [h2]
    simp
  refine ⟨?_, ?_⟩
  · intro hf
    rw [hbase]
    unfold buildDefaultRoute
    rw [hf]
  · intro d hf
    refine ⟨?_, ?_⟩
    · intro ht
      rw [hbase]
      unfold buildDefaultRoute
      rw [hf]
      simp [ht]
    · intro ht
      rw [hbase]
      unfold buildDefaultRoute
      rw [hf]
      cases hrand : pyTruthy (pyGetD m "random-route" (.bool false)) with
      | true => simp [hrand, defaultHost, ht]
      | false => simp [hrand, defaultHost, ht]

/-- Witness for C6 on a non-TCP shared domain, random-route unset. -/
theorem c6_witness :
    pyTruthy (pyGetD ([] : Dict) "no-route" (.bool false)) = false ∧
    noRoutesDeclared ([] : Dict) = .ok true ∧
    routeApplication exEnv [c6Domain] [] [] exSpace exApp [] []
      = ([.createHostRoute "c6-dom-guid" "space-guid" "myapp" "",
          .associateRoute "app-guid" "new-host-route"], .ok ()) := by
  refine ⟨rfl, rfl, ?_⟩
  have h := ((c6_default_route exEnv [c6Domain] [] [] exSpace exApp [] rfl rfl).2
    c6Domain rfl).2 (by decide)
  exact h

/-- C7: a declared route that parses to both a non-empty path and a port
fails with the conflicting-attributes error, and the failure is independent
of the domain dictionaries: the guard of lines 121-122 fires before
`_resolve_domain` runs for this route. -/
theorem c7_path_and_port_conflict
    (env : ClientEnv) (space : Space) (app : App)
    (privList sharList : List Domain) (existing_routes : List Route)
    (rr : PyVal) (rest : List PyVal) (d : String) (p : Int) (pa : String)
    (hsp : splitRoute rr = .ok (d, some p, pa)) (hpa : 0 < pa.length) :
    buildNewRequestedRoutes env space app privList sharList existing_routes (rr :: rest)
      = ([], .error .conflictingAttributes) := by
  have hone : processRequestedRoute env space app (mkDomainMap privList)
      (mkDomainMap sharList) existing_routes rr = ([], .error .conflictingAttributes) := by
    unfold processRequestedRoute
    rw [hsp]
    simp only
    rw [if_pos ⟨hpa, Option.some_ne_none p⟩]
  unfold buildNewRequestedRoutes processRoutes
  rw [hone]

/-- Witness for C7 at the route "app.example.com:8080/docs". -/
theorem c7_witness :
    splitRoute c7Route = .ok ("app.example.com", some 8080, "/docs") ∧
    buildNewRequestedRoutes exEnv exSpace exApp [] [] [] [c7Route]
      = ([], .error .conflictingAttributes) :=
  ⟨rfl,
   c7_path_and_port_conflict exEnv exSpace exApp [] [] [] c7Route []
     "app.example.com" 8080 "/docs" rfl (by decide)⟩

/-- Counterexample to C8 as stated: a manifest entry with neither a path
nor a docker block is skipped entirely — the push issues no collaborator
call at all for it, so no application record is resolved or created, no
routes are reconciled, no services are bound and no restart happens. -/
theorem c8_counterexample : push exEnv [c8Entry] = ([], .ok ()) := rfl

/-- C8 amended: the push loop processes, in order, exactly the manifest
entries declaring a path or a docker key.  An entry with neither key is
skipped.  An entry with a path key aborts the whole push — the unimplemented
upload raises after application resolution and route reconciliation, so
service binding, restart and the remaining entries never run.  An entry with
a docker key and no path key that completes successfully contributes the
application-resolution effects, the route-reconciliation effects, the
service bindings and the stop-start pair, followed by the remaining
entries. -/
theorem c8_amended_push_flow (env : ClientEnv) (m : Dict) (rest : List Dict) :
    (hasKey m "path" = false → hasKey m "docker" = false →
      push env (m :: rest) = push env rest) ∧
    (hasKey m "path" = true →
      push env (m :: rest) = pushApplication env m ∧
      ∃ e, (pushApplication env m).2 = .error e) ∧
    (hasKey m "path" = false → hasKey m "docker" = true →
      (pushDocker env m).2 = .ok () →
      push env (m :: rest)
        = ((initApplication env m).1
            ++ (routeApplication env env.clientSharedDomains env.orgPrivateDomains
                  env.orgSharedDomains env.space env.appResult env.appRoutes m).1
            ++ (bindServices env env.appResult m).1
            ++ [Effect.stop, Effect.start]
            ++ (push env rest).1,
           (push env rest).2)) := by
  have hstep : push env (m :: rest)
      = if hasKey m "path" = true then
          seqRes (pushApplication env m) fun _ => push env rest
        else if hasKey m "docker" = true then
          seqRes (pushDocker env m) fun _ => push env rest
        else push env rest := rfl
  refine ⟨?_, ?_, ?_⟩
  · intro hp hd
    rw [hstep, hp, hd]
    simp
  · intro hp
    obtain ⟨e, he⟩ := pushApplication_fails env m
    refine ⟨?_, ⟨e, he⟩⟩
    rw [hstep, hp]
    rw [if_pos rfl]
    exact seqRes_of_error _ _ e he
  · intro hp hd hok
    have hI : (initApplication env m).2 = .ok () := by
      unfold pushDocker at hok
      exact seqRes_ok_left _ _ hok
    have hR2 := seqRes_ok_right _ _ (show (seqRes (initApplication env m) _).2 = .ok ()
      from hok)
    have hR : (routeApplication env env.clientSharedDomains env.orgPrivateDomains
        env.orgSharedDomains env.space env.appResult env.appRoutes m).2 = .ok () :=
      seqRes_ok_left _ _ hR2
    have hB2 := seqRes_ok_right _ _ hR2
    have hB : (bindServices env env.appResult m).2 = .ok () := seqRes_ok_left _ _ hB2
    have hd1 : pushDocker env m
        = ((initApplication env m).1
            ++ ((routeApplication env env.clientSharedDomains env.orgPrivateDomains
                  env.orgSharedDomains env.space env.appResult env.appRoutes m).1
              ++ ((bindServices env env.appResult m).1 ++ [Effect.stop, Effect.start])),
           .ok ()) := by
      unfold pushDocker
      rw [seqRes_of_ok _ _ hI]
      rw [seqRes_of_ok _ _ hR]
      rw [seqRes_of_ok _ _ hB]
      rfl
    rw [hstep, hp, hd]
    simp only [Bool.false_eq_true, if_false, if_true]
    rw [seqRes_of_ok _ _ (by rw [hd1])]
    rw [hd1]
    simp [List.append_assoc]

/-- Witness for C8 on a docker entry that pushes successfully. -/
theorem c8_witness :
    (pushDocker c8Env c8DockerManifest).2 = .ok () ∧
    push c8Env [c8DockerManifest]
      = ((initApplication c8Env c8DockerManifest).1
          ++ (routeApplication c8Env c8Env.clientSharedDomains c8Env.orgPrivateDomains
                c8Env.orgSharedDomains c8Env.space c8Env.appResult c8Env.appRoutes
                c8DockerManifest).1
          ++ (bindServices c8Env c8Env.appResult c8DockerManifest).1
          ++ [Effect.stop, Effect.start]
          ++ (push c8Env []).1,
         (push c8Env []).2) :=
  ⟨rfl, (c8_amended_push_flow c8Env c8DockerManifest []).2.2 rfl rfl rfl⟩

/-- Counterexample to C9 as stated: with no stack matching the manifest's
stack name, request building succeeds — it does not fail with a not-found
error — and the request simply carries no stack guid. -/
theorem c9_counterexample :
    buildRequestFromManifest [] (.dict c9Manifest) = .ok c9Manifest ∧
    dGet c9Manifest "stack_guid" = none :=
  ⟨rfl, rfl⟩

/-- C9 amended: the stack name is resolved by lookup-by-name and its guid
attached when found; when no stack matches, the lookup yields nothing and
the request is built unchanged, without a stack guid and without an
error. -/
theorem c9_amended_stack_silent (stackList : List Stack) (m : Dict) (s : String)
    (h1 : dGet m "stack" = some (.str s))
    (h2 : ∀ st ∈ stackList, st.name ≠ s)
    (h3 : dGet m "docker" = none)
    (h4 : dGet m "stack_guid" = none) :
    buildRequestFromManifest stackList (.dict m) = .ok m ∧
    dGet m "stack_guid" = none := by
  refine ⟨?_, h4⟩
  have hfind : stackList.find? (fun st => st.name == s) = none := by
    rw [List.find?_eq_none]
    intro st hst
    simpa using h2 st hst
  unfold buildRequestFromManifest
  simp [hasKey, h1, hfind, h3]

/-- Witness for C9 with a non-empty stack list that misses the name. -/
theorem c9_witness :
    buildRequestFromManifest [⟨"cflinuxfs4", "stack-guid"⟩] (.dict c9Manifest)
      = .ok c9Manifest :=
  (c9_amended_stack_silent [⟨"cflinuxfs4", "stack-guid"⟩] c9Manifest "cflinuxfs3"
    rfl (by decide) rfl rfl).1

/-- C10: as soon as the application has at least one associated route, the
declared-route loop issues no route-creation call for any declared route,
whether or not any existing route matches it: the deduplication test of
lines 134-135 and 140-141 degenerates to non-emptiness of the
existing-route list. -/
theorem c10_existing_routes_block_creation
    (env : ClientEnv) (space : Space) (app : App)
    (privList sharList : List Domain) (existing_routes : List Route)
    (requested : List PyVal) (h : existing_routes ≠ []) :
    ∀ e ∈ (buildNewRequestedRoutes env space app privList sharList
        existing_routes requested).1, isCreateEffect e = false := by
  rw [buildNewRequestedRoutes_effects_nil env space app privList sharList
    existing_routes h requested]
  intro e he
  exact absurd he (List.not_mem_nil e)

/-- Witness for C10: one unrelated existing route suppresses creation of a
declared route it does not match. -/
theorem c10_witness :
    (([c10Existing] : List Route) ≠ []) ∧
    declMatches [] [c10Domain] c10Decl c10Existing = false ∧
    ∀ e ∈ (buildNewRequestedRoutes exEnv exSpace exApp [] [c10Domain]
        [c10Existing] [c10Decl]).1, isCreateEffect e = false :=
  ⟨List.cons_ne_nil _ _, rfl,
   c10_existing_routes_block_creation exEnv exSpace exApp [] [c10Domain]
     [c10Existing] [c10Decl] (List.cons_ne_nil _ _)⟩

end Push
